import Mathlib

/-!
Verification of the BigLinux noise-reduction-pipewire core against its
specification.  The Python sources under `src/biglinux_microphone/` are
shallowly embedded here: Python floats are modelled as rationals (every
float is a dyadic rational), the one transcendental operation
(`4.0**width` in the voice-changer path, libm `pow`) is carried as an
explicit function parameter `pow4`, and the string-producing generator
of `audio/filter_chain.py` is split into a structured graph description
(`FilterGraph`) plus a serializer that mirrors the f-string templates.
-/

namespace BigMic

/-! ## Data model (`config.py`) -/

/-- `NoiseModel` from `config.py` (IntEnum): GTCRN low latency = 0,
full quality = 1. -/
inductive NoiseModel where
  | gtcrnLowLatency
  | gtcrnFullQuality
  deriving DecidableEq

/-- `get_model_control_value` from `config.py`: the 0-based index of the
model inside `PLUGIN_MODELS[AIPlugin.GTCRN] = [LOW_LATENCY, FULL_QUALITY]`. -/
def getModelControlValue : NoiseModel → ℕ
  | .gtcrnLowLatency => 0
  | .gtcrnFullQuality => 1

/-- `StereoMode` from `config.py` (values "mono", "dual_mono", "radio",
"voice_changer"; the third constructor is named `radioVoice` here only
to satisfy identifier restrictions of this development). -/
inductive StereoMode where
  | mono
  | dualMono
  | radioVoice
  | voiceChanger
  deriving DecidableEq

/-! ## `FilterChainConfig` (`audio/filter_chain.py`) -/

/-- `FilterChainConfig` dataclass from `audio/filter_chain.py`, with the
same defaults.  Numeric fields that are Python floats are rationals;
`gate_threshold_db` and `gate_range_db` are Python ints. -/
structure FilterChainConfig where
  noise_reduction_enabled : Bool := true
  noise_reduction_model : NoiseModel := .gtcrnFullQuality
  noise_reduction_strength : ℚ := 1
  gate_enabled : Bool := true
  gate_threshold_db : ℤ := -40
  gate_range_db : ℤ := -60
  gate_attack_ms : ℚ := 10
  gate_hold_ms : ℚ := 300
  gate_release_ms : ℚ := 150
  stereo_mode : StereoMode := .mono
  stereo_width : ℚ := 7/10
  crossfeed_enabled : Bool := false
  crossfeed_level : ℚ := 3/10
  eq_enabled : Bool := false
  eq_bands : List ℚ := List.replicate 10 0
  transient_enabled : Bool := false
  transient_attack : ℚ := -1/2
  deriving DecidableEq

/-! ## LADSPA constants (`audio/filter_chain.py`) -/

def GTCRN_LIBRARY : String := "/usr/lib/ladspa/libgtcrn_ladspa.so"

def GTCRN_LABEL : String := "gtcrn_mono"

def GATE_LIBRARY : String := "/usr/lib/ladspa/gate_1410.so"

def GATE_LABEL : String := "gate"

def AMP_LIBRARY : String := "/usr/lib/ladspa/amp_1181.so"

def AMP_LABEL : String := "amp"

def SC4_LIBRARY : String := "/usr/lib/ladspa/sc4m_1916.so"

def SC4_LABEL : String := "sc4m"

def PITCH_SCALE_LIBRARY : String := "/usr/lib/ladspa/pitch_scale_1193.so"

def PITCH_SCALE_LABEL : String := "pitchScale"

def MBEQ_LIBRARY : String := "/usr/lib/ladspa/mbeq_1197.so"

def MBEQ_LABEL : String := "mbeq"

/-- `EQ_BAND_TO_MBEQ_INDEX`: fixed table mapping the 10 UI bands onto
the 15 MBEQ bands. -/
def EQ_BAND_TO_MBEQ_INDEX : List ℕ := [0, 1, 2, 4, 6, 8, 10, 12, 13, 14]

/-- `MBEQ_PARAM_NAMES`: the 15 LADSPA port names of mbeq_1197. -/
def MBEQ_PARAM_NAMES : List String :=
  ["50Hz gain (low shelving)", "100Hz gain", "156Hz gain", "220Hz gain",
   "311Hz gain", "440Hz gain", "622Hz gain", "880Hz gain", "1250Hz gain",
   "1750Hz gain", "2500Hz gain", "3500Hz gain", "5000Hz gain",
   "10000Hz gain", "20000Hz gain"]

def DEVICE_NAME : String := "Noise Canceling Microphone"

def FILTER_SMART_NAME : String := "big.filter-microphone"

/-! ## Structured graph description

`filter_chain.py` emits the graph as text; the structured form below
records, for each emitted node, its name, kind and control assignments
(in emission order), and the emitted link/input/output port lists. -/

/-- Kind of a `ProcessingNode`: PipeWire builtin or LADSPA plugin. -/
inductive NodeKind where
  | builtin (label : String)
  | ladspa (plugin : String) (label : String)
  deriving DecidableEq

/-- One node of the filter graph, with its control parameters in the
order the generator writes them. -/
structure Node where
  name : String
  kind : NodeKind
  control : List (String × ℚ)
  deriving DecidableEq

/-- One link line `{ output = "..." input = "..." }`. -/
structure Link where
  output : String
  input : String
  deriving DecidableEq

/-- The `filter.graph` block: nodes, links, inputs, outputs. -/
structure FilterGraph where
  nodes : List Node
  links : List Link
  inputs : List String
  outputs : List String
  deriving DecidableEq

/-- Find the first node with the given name (emission order). -/
def FilterGraph.findNode (g : FilterGraph) (n : String) : Option Node :=
  g.nodes.find? (fun nd => nd.name == n)

/-- Value of a control parameter on one node. -/
def nodeCtrl (nd : Node) (param : String) : Option ℚ :=
  (nd.control.find? (fun kv => kv.1 == param)).map Prod.snd

/-- Value of a control parameter on a node of the graph. -/
def ctrlValue (g : FilterGraph) (node param : String) : Option ℚ :=
  (g.findNode node).bind (fun nd => nodeCtrl nd param)

/-! ## Node generators (`_generate_*_node`) -/

/-- `_generate_gate_node`: gate_1410 with the config's gate parameters
and the fixed key-filter / output-select controls. -/
def gateNode (c : FilterChainConfig) : Node where
  name := "gate"
  kind := .ladspa GATE_LIBRARY GATE_LABEL
  control :=
    [("Threshold (dB)", (c.gate_threshold_db : ℚ)),
     ("Attack (ms)", c.gate_attack_ms),
     ("Hold (ms)", c.gate_hold_ms),
     ("Decay (ms)", c.gate_release_ms),
     ("Range (dB)", (c.gate_range_db : ℚ)),
     ("LF key filter (Hz)", 20),
     ("HF key filter (Hz)", 20000),
     ("Output select (-1 = key listen, 0 = gate, 1 = bypass)", 0)]

/-- `_generate_ai_node`: GTCRN noise reduction node. -/
def aiNode (c : FilterChainConfig) : Node where
  name := "ai"
  kind := .ladspa GTCRN_LIBRARY GTCRN_LABEL
  control :=
    [("Enable", 1),
     ("Strength", c.noise_reduction_strength),
     ("Model", (getModelControlValue c.noise_reduction_model : ℚ))]

/-- The MBEQ value table built by `_generate_eq_node`: start from
fifteen 0.0 entries and write UI band `i` into slot
`EQ_BAND_TO_MBEQ_INDEX[i]` (the enumerate loop guards `i < 10`, which
the zip reproduces). -/
def mbeqValues (bands : List ℚ) : List ℚ :=
  (bands.zip EQ_BAND_TO_MBEQ_INDEX).foldl (fun acc p => acc.set p.2 p.1)
    (List.replicate 15 0)

/-- `_generate_eq_node`: mbeq_1197 with all 15 band controls. -/
def eqNode (c : FilterChainConfig) : Node where
  name := "eq"
  kind := .ladspa MBEQ_LIBRARY MBEQ_LABEL
  control := MBEQ_PARAM_NAMES.zip (mbeqValues c.eq_bands)

/-- A builtin `copy` node with the given name. -/
def copyNode (n : String) : Node where
  name := n
  kind := .builtin "copy"
  control := []

/-! ## Chain assembly (`_generate_mono_config` / `_generate_stereo_config`) -/

/-- The `active_filters` name list: ai (if enabled) → gate (if enabled)
→ eq (if enabled), in this fixed order. -/
def activeFilters (c : FilterChainConfig) : List String :=
  (if c.noise_reduction_enabled then ["ai"] else [])
    ++ (if c.gate_enabled then ["gate"] else [])
    ++ (if c.eq_enabled then ["eq"] else [])

/-- The node list built alongside `active_filters`. -/
def chainNodes (c : FilterChainConfig) : List Node :=
  (if c.noise_reduction_enabled then [aiNode c] else [])
    ++ (if c.gate_enabled then [gateNode c] else [])
    ++ (if c.eq_enabled then [eqNode c] else [])

/-- The links `active[i]:Output → active[i+1]:Input` between
consecutive chain stages. -/
def consecLinks : List String → List Link
  | a :: b :: rest => ⟨a ++ ":Output", b ++ ":Input"⟩ :: consecLinks (b :: rest)
  | _ => []

/-- `_generate_passthrough_config`'s graph: a single builtin copy node,
no links, graph input and output on that node. -/
def passthroughGraph : FilterGraph where
  nodes := [copyNode "passthrough"]
  links := []
  inputs := ["passthrough:In"]
  outputs := ["passthrough:Out"]

/-- Graph part of `_generate_mono_config`. -/
def monoGraph (c : FilterChainConfig) : FilterGraph :=
  let active := activeFilters c
  if active = [] then passthroughGraph
  else
    { nodes := chainNodes c
      links := consecLinks active
      inputs := [active.headD ("") ++ ":Input"]
      outputs := [active.getLastD ("") ++ ":Output"] }

/-- Graph part of `_generate_dual_mono_stereo`: tee the chain output to
two copy branches. -/
def dualMonoGraph (nodes : List Node) (links : List Link)
    (first last : String) : FilterGraph where
  nodes := nodes ++ [copyNode "copy_tee", copyNode "copy_left", copyNode "copy_right"]
  links := links
    ++ [⟨last ++ ":Output", "copy_tee:In"⟩,
        ⟨"copy_tee:Out", "copy_left:In"⟩,
        ⟨"copy_tee:Out", "copy_right:In"⟩]
  inputs := [first ++ ":Input"]
  outputs := ["copy_left:Out", "copy_right:Out"]

/-- The SC4 compressor node of `_generate_radio_mode`, with its
width-derived parameters (note the source computes
`makeup_gain = 2.0 + width * 4.0`). -/
def compressorNode (c : FilterChainConfig) : Node where
  name := "compressor"
  kind := .ladspa SC4_LIBRARY SC4_LABEL
  control :=
    [("RMS/peak", 1/2),
     ("Attack time (ms)", 10),
     ("Release time (ms)", 100 + c.stereo_width * 100),
     ("Threshold level (dB)", -15 - c.stereo_width * 10),
     ("Ratio (1:n)", 4 + c.stereo_width * 6),
     ("Knee radius (dB)", 3),
     ("Makeup gain (dB)", 2 + c.stereo_width * 4)]

/-- Graph part of `_generate_radio_mode`: chain → compressor → tee →
left/right copies. -/
def radioGraph (c : FilterChainConfig) (nodes : List Node)
    (links : List Link) (first last : String) : FilterGraph where
  nodes := nodes
    ++ [compressorNode c, copyNode "copy_tee", copyNode "copy_left",
        copyNode "copy_right"]
  links := links
    ++ [⟨last ++ ":Output", "compressor:Input"⟩,
        ⟨"compressor:Output", "copy_tee:In"⟩,
        ⟨"copy_tee:Out", "copy_left:In"⟩,
        ⟨"copy_tee:Out", "copy_right:In"⟩]
  inputs := [first ++ ":Input"]
  outputs := ["copy_left:Out", "copy_right:Out"]

/-- `pitch_coeff` of `_generate_pitch_mode`:
`0.5 * (4.0**width)` clamped to `[0.5, 2.0]`.  `pow4` models the libm
power primitive `fun w => 4.0**w`. -/
def pitchCoeff (pow4 : ℚ → ℚ) (width : ℚ) : ℚ :=
  max (1/2) (min 2 (1/2 * pow4 width))

/-- `gain_db` of `_generate_pitch_mode`: base 5 dB, plus
`(1 - pitch) * 20` dB when the pitch coefficient is below 1. -/
def pitchGainDb (pc : ℚ) : ℚ :=
  if pc < 1 then 5 + (1 - pc) * 20 else 5

/-- Graph part of `_generate_pitch_mode`: chain → pitch → gain → tee →
left/right copies. -/
def pitchGraph (pow4 : ℚ → ℚ) (c : FilterChainConfig) (nodes : List Node)
    (links : List Link) (first last : String) : FilterGraph :=
  let pc := pitchCoeff pow4 c.stereo_width
  { nodes := nodes
      ++ [{ name := "pitch", kind := .ladspa PITCH_SCALE_LIBRARY PITCH_SCALE_LABEL,
            control := [("Pitch co-efficient", pc)] },
          { name := "pitch_gain", kind := .ladspa AMP_LIBRARY AMP_LABEL,
            control := [("Amps gain (dB)", pitchGainDb pc)] },
          copyNode "copy_tee", copyNode "copy_left", copyNode "copy_right"]
    links := links
      ++ [⟨last ++ ":Output", "pitch:Input"⟩,
          ⟨"pitch:Output", "pitch_gain:Input"⟩,
          ⟨"pitch_gain:Output", "copy_tee:In"⟩,
          ⟨"copy_tee:Out", "copy_left:In"⟩,
          ⟨"copy_tee:Out", "copy_right:In"⟩]
    inputs := [first ++ ":Input"]
    outputs := ["copy_left:Out", "copy_right:Out"] }

/-- Graph part of `_generate_stereo_config`: build the chain, fall back
to passthrough when empty, else dispatch on the stereo mode. -/
def stereoGraph (pow4 : ℚ → ℚ) (c : FilterChainConfig) : FilterGraph :=
  let active := activeFilters c
  if active = [] then passthroughGraph
  else
    let first := active.headD ("")
    let last := active.getLastD ("")
    match c.stereo_mode with
    | .radioVoice => radioGraph c (chainNodes c) (consecLinks active) first last
    | .voiceChanger => pitchGraph pow4 c (chainNodes c) (consecLinks active) first last
    | _ => dualMonoGraph (chainNodes c) (consecLinks active) first last

/-- Graph part of `FilterChainGenerator.generate`: stereo dispatch when
the mode is not MONO, else the mono path. -/
def generateGraph (pow4 : ℚ → ℚ) (c : FilterChainConfig) : FilterGraph :=
  if c.stereo_mode ≠ .mono then stereoGraph pow4 c else monoGraph c

/-! ## Text serialization

The Python generator emits the config as f-string templates; the
functions below mirror those templates line by line.  Literal braces of
the PipeWire syntax are written with `\x7b` / `\x7d` escapes. -/

/-- Left-pad a digit string with zeros to width `k`. -/
def padZeros (k : ℕ) (s : String) : String :=
  String.mk (List.replicate (k - s.length) '0') ++ s

/-- Render the integer `n` as a decimal number scaled down by `10^k`
(used with `k ≥ 1`), e.g. `fmtDecimals 1 (-200) = "-20.0"`. -/
def fmtDecimals (k : ℕ) (n : ℤ) : String :=
  (if n < 0 then "-" else "")
    ++ toString (n.natAbs / 10 ^ k) ++ "."
    ++ padZeros k (toString (n.natAbs % 10 ^ k))

/-- Round to the nearest integer, ties to even — the rounding used by
Python `format` on the exact value of a float. -/
def roundHalfEven (x : ℚ) : ℤ :=
  if x - ⌊x⌋ < 1/2 then ⌊x⌋
  else if 1/2 < x - ⌊x⌋ then ⌊x⌋ + 1
  else if ⌊x⌋ % 2 = 0 then ⌊x⌋ else ⌊x⌋ + 1

/-- Python's `:.kf` fixed-point formatting on the exact value. -/
def fmtFixed (k : ℕ) (x : ℚ) : String :=
  fmtDecimals k (roundHalfEven (x * 10 ^ k))

/-- Python's `repr` of a float with a terminating decimal expansion
(every value this program formats): the shortest decimal form, with at
least one digit after the point. -/
def fmtFloat (x : ℚ) : String :=
  match (List.range 18).find? (fun k => (x * 10 ^ k).den == 1) with
  | some 0 => toString x.num ++ ".0"
  | some k => fmtDecimals k (x * 10 ^ k).num
  | none => toString x.num ++ "/" ++ toString x.den

def joinNL (xs : List String) : String := String.intercalate ("\n") xs

def quoted (s : String) : String := "\"" ++ s ++ "\""

def ind (n : ℕ) : String := String.mk (List.replicate n ' ')

def ctrlLine (p v : String) : String := quoted p ++ " = " ++ v

/-- The lines of a `type = ladspa` node block (20/24/28-space indents,
as in the source templates). -/
def ladspaNodeLines (name plugin label : String) (ctrls : List String) :
    List String :=
  [ind 20 ++ "\x7b",
   ind 24 ++ "type = ladspa",
   ind 24 ++ "name = " ++ quoted name,
   ind 24 ++ "plugin = " ++ quoted plugin,
   ind 24 ++ "label = " ++ quoted label,
   ind 24 ++ "control = \x7b"]
  ++ ctrls.map (fun l => ind 28 ++ l)
  ++ [ind 24 ++ "\x7d", ind 20 ++ "\x7d"]

/-- A commented builtin `copy` node block. -/
def copyNodeLines (comment name : String) : List String :=
  [ind 20 ++ "# " ++ comment,
   ind 20 ++ "\x7b",
   ind 24 ++ "type = builtin",
   ind 24 ++ "name = " ++ quoted name,
   ind 24 ++ "label = copy",
   ind 20 ++ "\x7d"]

/-- Text of `_generate_gate_node`. -/
def gateNodeText (c : FilterChainConfig) : String :=
  joinNL (ladspaNodeLines ("gate") GATE_LIBRARY GATE_LABEL
    [ctrlLine ("Threshold (dB)") (toString c.gate_threshold_db),
     ctrlLine ("Attack (ms)") (fmtFloat c.gate_attack_ms),
     ctrlLine ("Hold (ms)") (fmtFloat c.gate_hold_ms),
     ctrlLine ("Decay (ms)") (fmtFloat c.gate_release_ms),
     ctrlLine ("Range (dB)") (toString c.gate_range_db),
     ctrlLine ("LF key filter (Hz)") ("20.0"),
     ctrlLine ("HF key filter (Hz)") ("20000.0"),
     ctrlLine ("Output select (-1 = key listen, 0 = gate, 1 = bypass)") ("0")])

/-- Text of `_generate_ai_node`. -/
def aiNodeText (c : FilterChainConfig) : String :=
  joinNL (ladspaNodeLines ("ai") GTCRN_LIBRARY GTCRN_LABEL
    [ctrlLine ("Enable") ("1.0"),
     ctrlLine ("Strength") (fmtFloat c.noise_reduction_strength),
     ctrlLine ("Model") (toString (getModelControlValue c.noise_reduction_model))])

/-- Text of `_generate_eq_node` (leading blank line and comment, as in
the source). -/
def eqNodeText (c : FilterChainConfig) : String :=
  let v := mbeqValues c.eq_bands
  joinNL (("" :: [ind 20 ++ "# Multiband EQ (15 bands)"])
    ++ ladspaNodeLines ("eq") MBEQ_LIBRARY MBEQ_LABEL
      ((List.range 15).map
        (fun i => ctrlLine (MBEQ_PARAM_NAMES.getD i ("")) (fmtFloat (v.getD i 0)))))

/-- Text of the SC4 compressor node in `_generate_radio_mode` (all
control values formatted with `:.1f`). -/
def compressorNodeText (c : FilterChainConfig) : String :=
  joinNL ((ind 20 ++ "# SC4 Mono Compressor for radio voice effect")
    :: ladspaNodeLines ("compressor") SC4_LIBRARY SC4_LABEL
      [ctrlLine ("RMS/peak") ("0.5"),
       ctrlLine ("Attack time (ms)") (fmtFixed 1 10),
       ctrlLine ("Release time (ms)") (fmtFixed 1 (100 + c.stereo_width * 100)),
       ctrlLine ("Threshold level (dB)") (fmtFixed 1 (-15 - c.stereo_width * 10)),
       ctrlLine ("Ratio (1:n)") (fmtFixed 1 (4 + c.stereo_width * 6)),
       ctrlLine ("Knee radius (dB)") (fmtFixed 1 3),
       ctrlLine ("Makeup gain (dB)") (fmtFixed 1 (2 + c.stereo_width * 4))])

/-- Text of the pitch node in `_generate_pitch_mode` (`:.2f`). -/
def pitchNodeText (pow4 : ℚ → ℚ) (c : FilterChainConfig) : String :=
  joinNL ((ind 20 ++ "# Pitch Scale for Voice Changer")
    :: ladspaNodeLines ("pitch") PITCH_SCALE_LIBRARY PITCH_SCALE_LABEL
      [ctrlLine ("Pitch co-efficient") (fmtFixed 2 (pitchCoeff pow4 c.stereo_width))])

/-- Text of the gain-compensation node in `_generate_pitch_mode`. -/
def pitchGainNodeText (pow4 : ℚ → ℚ) (c : FilterChainConfig) : String :=
  joinNL ((ind 20 ++ "# Gain Compensation")
    :: ladspaNodeLines ("pitch_gain") AMP_LIBRARY AMP_LABEL
      [ctrlLine ("Amps gain (dB)")
        (fmtFixed 2 (pitchGainDb (pitchCoeff pow4 c.stereo_width)))])

/-- One link line `{ output = "..." input = "..." }`. -/
def linkText (l : Link) : String :=
  "\x7b output = " ++ quoted l.output ++ " input = " ++ quoted l.input ++ " \x7d"

/-- The chain node texts in `active_filters` order. -/
def chainNodeTexts (c : FilterChainConfig) : List String :=
  (if c.noise_reduction_enabled then [aiNodeText c] else [])
    ++ (if c.gate_enabled then [gateNodeText c] else [])
    ++ (if c.eq_enabled then [eqNodeText c] else [])

/-- Text of `_generate_passthrough_config`. -/
def passthroughText : String :=
  joinNL
    ["# BigLinux Microphone Enhanced Filter Chain",
     "# Auto-generated configuration - Passthrough (no filters)",
     "",
     "context.modules = [",
     ind 4 ++ "\x7b",
     ind 8 ++ "name = libpipewire-module-filter-chain",
     ind 8 ++ "args = \x7b",
     ind 12 ++ "node.description = " ++ quoted DEVICE_NAME,
     ind 12 ++ "media.name = " ++ quoted DEVICE_NAME,
     ind 12 ++ "filter.graph = \x7b",
     ind 16 ++ "nodes = [",
     ind 20 ++ "\x7b",
     ind 24 ++ "type = builtin",
     ind 24 ++ "name = " ++ quoted ("passthrough"),
     ind 24 ++ "label = copy",
     ind 20 ++ "\x7d",
     ind 16 ++ "]",
     ind 16 ++ "links = []",
     ind 16 ++ "inputs = [ " ++ quoted ("passthrough:In") ++ " ]",
     ind 16 ++ "outputs = [ " ++ quoted ("passthrough:Out") ++ " ]",
     ind 12 ++ "\x7d",
     ind 12 ++ "audio.channels = 1",
     ind 12 ++ "capture.props = \x7b",
     ind 16 ++ "node.passive = true",
     ind 12 ++ "\x7d",
     ind 12 ++ "playback.props = \x7b",
     ind 16 ++ "node.pause-on-idle = false",
     ind 16 ++ "audio.rate = 48000",
     ind 16 ++ "filter.smart = true",
     ind 16 ++ "media.class = " ++ quoted ("Audio/Source"),
     ind 16 ++ "filter.smart.name = " ++ quoted FILTER_SMART_NAME,
     ind 12 ++ "\x7d",
     ind 8 ++ "\x7d",
     ind 4 ++ "\x7d",
     "]",
     ""]

/-- Text of `_generate_mono_config` when at least one stage is active. -/
def monoChainText (c : FilterChainConfig) : String :=
  let active := activeFilters c
  let linksStr := String.intercalate ("\n" ++ ind 20)
    ((consecLinks active).map linkText)
  joinNL
    ["# BigLinux Microphone Enhanced Filter Chain",
     "# Auto-generated configuration - Mono output",
     "",
     "context.modules = [",
     ind 4 ++ "\x7b",
     ind 8 ++ "name = libpipewire-module-filter-chain",
     ind 8 ++ "args = \x7b",
     ind 12 ++ "node.description = " ++ quoted DEVICE_NAME,
     ind 12 ++ "media.name = " ++ quoted DEVICE_NAME,
     ind 12 ++ "filter.graph = \x7b",
     ind 16 ++ "nodes = [",
     joinNL (chainNodeTexts c),
     ind 16 ++ "]",
     ind 16 ++ "links = [",
     ind 20 ++ linksStr,
     ind 16 ++ "]",
     ind 16 ++ "inputs = [ " ++ quoted (active.headD ("") ++ ":Input") ++ " ]",
     ind 16 ++ "outputs = [ " ++ quoted (active.getLastD ("") ++ ":Output") ++ " ]",
     ind 12 ++ "\x7d",
     ind 12 ++ "audio.channels = 1",
     ind 12 ++ "capture.props = \x7b",
     ind 16 ++ "node.passive = true",
     ind 12 ++ "\x7d",
     ind 12 ++ "playback.props = \x7b",
     ind 16 ++ "node.pause-on-idle = false",
     ind 16 ++ "audio.rate = 48000",
     ind 16 ++ "audio.position = [ MONO ]",
     ind 16 ++ "filter.smart = true",
     ind 16 ++ "media.class = " ++ quoted ("Audio/Source"),
     ind 16 ++ "filter.smart.name = " ++ quoted FILTER_SMART_NAME,
     ind 12 ++ "\x7d",
     "",
     ind 8 ++ "\x7d",
     ind 4 ++ "\x7d",
     "]",
     ""]

/-- Shared tail of the three stereo templates: the stereo
capture/playback property blocks and closing brackets. -/
def stereoTailLines : List String :=
  [ind 12 ++ "\x7d",
   ind 12 ++ "capture.props = \x7b",
   ind 16 ++ "audio.position = [ MONO ]",
   ind 16 ++ "node.passive = true",
   ind 12 ++ "\x7d",
   ind 12 ++ "playback.props = \x7b",
   ind 16 ++ "node.pause-on-idle = false",
   ind 16 ++ "audio.rate = 48000",
   ind 16 ++ "audio.position = [ FL FR ]",
   ind 16 ++ "filter.smart = true",
   ind 16 ++ "media.class = " ++ quoted ("Audio/Source"),
   ind 16 ++ "filter.smart.name = " ++ quoted FILTER_SMART_NAME,
   ind 12 ++ "\x7d",
   ind 8 ++ "\x7d",
   ind 4 ++ "\x7d",
   "]",
   ""]

/-- Shared body of the stereo templates before the graph block. -/
def stereoHeadLines (header : String) : List String :=
  ["# BigLinux Microphone Enhanced Filter Chain",
   "# Auto-generated configuration - " ++ header,
   "",
   "context.modules = [",
   ind 4 ++ "\x7b",
   ind 8 ++ "name = libpipewire-module-filter-chain",
   ind 8 ++ "args = \x7b",
   ind 12 ++ "node.description = " ++ quoted DEVICE_NAME,
   ind 12 ++ "media.name = " ++ quoted DEVICE_NAME,
   ind 12 ++ "filter.graph = \x7b",
   ind 16 ++ "nodes = ["]

/-- The graph block of a stereo template, given the node texts and the
full link list. -/
def stereoGraphLines (nodeTexts : List String) (links : List Link)
    (first : String) : List String :=
  [joinNL nodeTexts,
   ind 16 ++ "]",
   ind 16 ++ "links = [",
   ind 20 ++ String.intercalate ("\n" ++ ind 20) (links.map linkText),
   ind 16 ++ "]",
   ind 16 ++ "inputs = [ " ++ quoted (first ++ ":Input") ++ " ]",
   ind 16 ++ "outputs = [ " ++ quoted ("copy_left:Out") ++ " "
     ++ quoted ("copy_right:Out") ++ " ]"]

/-- Text of `_generate_dual_mono_stereo`. -/
def dualMonoText (c : FilterChainConfig) : String :=
  let active := activeFilters c
  let last := active.getLastD ("")
  let nodeTexts := chainNodeTexts c
    ++ [joinNL (copyNodeLines ("Copy node to tee the signal") ("copy_tee")),
        joinNL (copyNodeLines ("Left channel output (direct copy)") ("copy_left")),
        joinNL (copyNodeLines ("Right channel output (copy)") ("copy_right"))]
  let links := consecLinks active
    ++ [⟨last ++ ":Output", "copy_tee:In"⟩,
        ⟨"copy_tee:Out", "copy_left:In"⟩,
        ⟨"copy_tee:Out", "copy_right:In"⟩]
  joinNL (stereoHeadLines ("Stereo output with Dual Mono")
    ++ stereoGraphLines nodeTexts links (active.headD (""))
    ++ stereoTailLines)

/-- Text of `_generate_radio_mode`. -/
def radioText (c : FilterChainConfig) : String :=
  let active := activeFilters c
  let last := active.getLastD ("")
  let nodeTexts := chainNodeTexts c
    ++ [compressorNodeText c,
        joinNL (copyNodeLines ("Copy node to tee the compressed signal") ("copy_tee")),
        joinNL (copyNodeLines ("Left channel output") ("copy_left")),
        joinNL (copyNodeLines ("Right channel output") ("copy_right"))]
  let links := consecLinks active
    ++ [⟨last ++ ":Output", "compressor:Input"⟩,
        ⟨"compressor:Output", "copy_tee:In"⟩,
        ⟨"copy_tee:Out", "copy_left:In"⟩,
        ⟨"copy_tee:Out", "copy_right:In"⟩]
  joinNL (stereoHeadLines ("Radio Voice Mode")
    ++ stereoGraphLines nodeTexts links (active.headD (""))
    ++ stereoTailLines)

/-- Text of `_generate_pitch_mode`. -/
def pitchText (pow4 : ℚ → ℚ) (c : FilterChainConfig) : String :=
  let active := activeFilters c
  let last := active.getLastD ("")
  let nodeTexts := chainNodeTexts c
    ++ [pitchNodeText pow4 c,
        pitchGainNodeText pow4 c,
        joinNL (copyNodeLines ("Copy node to tee the shifted signal") ("copy_tee")),
        joinNL (copyNodeLines ("Left channel output") ("copy_left")),
        joinNL (copyNodeLines ("Right channel output") ("copy_right"))]
  let links := consecLinks active
    ++ [⟨last ++ ":Output", "pitch:Input"⟩,
        ⟨"pitch:Output", "pitch_gain:Input"⟩,
        ⟨"pitch_gain:Output", "copy_tee:In"⟩,
        ⟨"copy_tee:Out", "copy_left:In"⟩,
        ⟨"copy_tee:Out", "copy_right:In"⟩]
  joinNL (stereoHeadLines ("Voice Changer")
    ++ stereoGraphLines nodeTexts links (active.headD (""))
    ++ stereoTailLines)

/-- Text of `_generate_stereo_config`. -/
def stereoConfigText (pow4 : ℚ → ℚ) (c : FilterChainConfig) : String :=
  if activeFilters c = [] then passthroughText
  else
    match c.stereo_mode with
    | .radioVoice => radioText c
    | .voiceChanger => pitchText pow4 c
    | _ => dualMonoText c

/-- Text of `_generate_mono_config`. -/
def monoConfigText (c : FilterChainConfig) : String :=
  if activeFilters c = [] then passthroughText else monoChainText c

/-- `FilterChainGenerator.generate`: the full configuration text. -/
def generate (pow4 : ℚ → ℚ) (c : FilterChainConfig) : String :=
  if c.stereo_mode ≠ .mono then stereoConfigText pow4 c else monoConfigText c

/-! ## PipeWireService runtime model (`services/pipewire_service.py`)

The mutable runtime of `PipeWireService` relevant to start/stop and the
live-update worker: the `_is_updating` reentrancy flag, whether a
filter-chain process is alive, whether the generated config file exists,
the `_cached_node_id` discovery cache, and a ghost counter of
`subprocess.Popen` spawns.  The model follows the happy external
environment (kills succeed, the freshly spawned process stays alive
through the confirmation polling loop). -/

structure SvcState where
  isUpdating : Bool
  procAlive : Bool
  configExists : Bool
  cachedNodeId : Option String
  spawnCount : ℕ
  deriving DecidableEq

/-- `is_enabled`: the pgrep process check, with the config-file
existence fallback (the intermediate pactl source probe adds no positive
case beyond the process check in this model). -/
def isEnabledSvc (s : SvcState) : Bool := s.procAlive || s.configExists

/-- `_stop_filter_chain`: kill any filter-chain process, remove the
config file, invalidate the node-id cache. -/
def stopFilterChain (s : SvcState) : SvcState :=
  { s with procAlive := false, configExists := false, cachedNodeId := none }

/-- `start`: refuse when `_is_updating`; else stop any existing
filter-chain, regenerate the config file, spawn a fresh process
(`spawnCount` increments), confirm via polling (the spawned process is
alive, so `is_enabled` holds), invalidate the cache and report True. -/
def svcStart (s : SvcState) : SvcState × Bool :=
  if s.isUpdating then (s, false)
  else
    let s1 := stopFilterChain { s with isUpdating := true }
    let s2 := { s1 with configExists := true }
    let s3 := { s2 with procAlive := true, spawnCount := s2.spawnCount + 1 }
    let s4 := { s3 with cachedNodeId := none }
    ({ s4 with isUpdating := false }, true)

/-- `stop`: refuse when `_is_updating`; else `_stop_filter_chain` and
report `not is_enabled()`. -/
def svcStop (s : SvcState) : SvcState × Bool :=
  if s.isUpdating then (s, false)
  else
    let s1 := stopFilterChain { s with isUpdating := true }
    ({ s1 with isUpdating := false }, !(isEnabledSvc s1))

/-! ## EQ band setter (`set_eq_band`) -/

/-- EQ band range documented in `config.py` (`EQ_BAND_MIN`). -/
def EQ_BAND_MIN : ℚ := -40

/-- EQ band range documented in `config.py` (`EQ_BAND_MAX`). -/
def EQ_BAND_MAX : ℚ := 40

/-- Result of `set_eq_band`: the band list afterwards, the returned
Bool, and the live update enqueued (parameter name, value), if any. -/
structure EqSetResult where
  bands : List ℚ
  ok : Bool
  push : Option (String × ℚ)
  deriving DecidableEq

/-- `set_eq_band(band_index, value_db)`: reject indices outside 0..9
without touching the bands; otherwise clamp the value to `[-12, 12]`,
store it, and (when running with EQ enabled) push the clamped value as
`eq:{MBEQ_PARAM_NAMES[EQ_BAND_TO_MBEQ_INDEX[i]]}`. -/
def set_eq_band (running eqEnabled : Bool) (bands : List ℚ)
    (bandIndex : ℤ) (valueDb : ℚ) : EqSetResult :=
  if ¬ (0 ≤ bandIndex ∧ bandIndex < 10) then ⟨bands, false, none⟩
  else
    let v := max (-12) (min 12 valueDb)
    let bands1 := bands.set bandIndex.toNat v
    if running && eqEnabled then
      ⟨bands1, true,
        some ("eq:" ++ MBEQ_PARAM_NAMES.getD
          (EQ_BAND_TO_MBEQ_INDEX.getD bandIndex.toNat 0) (""), v)⟩
    else ⟨bands1, true, none⟩

/-! ## Live-update worker (`_update_param_live`, `_worker_loop`,
`_perform_live_update`) -/

/-- Outcome of one external `pw-cli set-param` invocation: exit 0,
nonzero exit, or a raised exception (e.g. timeout). -/
inductive CallResult where
  | ok
  | errExit
  | exn
  deriving DecidableEq

/-- `_get_filter_chain_node_id`: return the cache when set; otherwise
run the discovery query (abstracted as `dump`, the id the pw-dump scan
would yield, `none` for not-found or query error) and cache a hit.
Returns (resolved id, cache afterwards). -/
def getFilterChainNodeId (cache : Option String) (dump : Option String) :
    Option String × Option String :=
  match cache with
  | some i => (some i, some i)
  | none =>
    match dump with
    | some i => (some i, some i)
    | none => (none, none)

/-- `_perform_live_update`: resolve the node id (dropping the request
when unresolved); issue the external call; on nonzero exit invalidate
the cache; on an exception return False with the cache untouched.
Returns (cache afterwards, reported Bool). -/
def performLiveUpdate (cache : Option String) (dump : Option String)
    (callResult : String → CallResult) : Option String × Bool :=
  match getFilterChainNodeId cache dump with
  | (none, cache1) => (cache1, false)
  | (some nid, cache1) =>
    match callResult nid with
    | .ok => (cache1, true)
    | .errExit => (none, false)
    | .exn => (cache1, false)

/-- `_update_param_live`: enqueue the request and report True
immediately (the caller never blocks on, nor sees, the update's fate). -/
def updateParamLive (queue : List (String × ℚ)) (p : String × ℚ) :
    List (String × ℚ) × Bool :=
  (queue ++ [p], true)

/-- `_worker_loop` draining the queue: each request is consumed exactly
once by `_perform_live_update` (no retry), threading the cache through.
Returns the final cache and the per-request outcomes. -/
def workerDrain (dump : Option String) (callResult : String → CallResult) :
    Option String → List (String × ℚ) → Option String × List Bool
  | cache, [] => (cache, [])
  | cache, _ :: rest =>
      let step := performLiveUpdate cache dump callResult
      let tail := workerDrain dump callResult step.1 rest
      (tail.1, step.2 :: tail.2)

/-! ## AudioMonitor spectrum path (`services/audio_monitor.py`)

Floating-point primitives that have no exact rational counterpart are
carried as function parameters: `logspacePoint i` models the `i`-th
entry of `np.logspace(log10(20), log10(16000), num_bands + 1)`,
`sqrtFn` models `** 0.5`, and `dbFn` models
`20 * log10(magnitude / ref_magnitude)`. -/

def NUM_SPECTRUM_BANDS : ℕ := 32

def SAMPLE_RATE : ℕ := 32000

def FFT_SIZE : ℕ := 2048

def SPECTRUM_THRESHOLD_DB : ℚ := -80

/-- `self._freq_resolution = SAMPLE_RATE / FFT_SIZE`. -/
def freqResolution : ℚ := (SAMPLE_RATE : ℚ) / (FFT_SIZE : ℚ)

/-- `self._band_edges = np.logspace(log_min, log_max, num_bands + 1)`:
a list of `num_bands + 1` frequency points. -/
def bandEdges (numBands : ℕ) (logspacePoint : ℕ → ℚ) : List ℚ :=
  (List.range (numBands + 1)).map logspacePoint

/-- The precomputed `(start_bin, end_bin)` ranges: `int()` truncation is
floor on these positive frequencies. -/
def bandBinRanges (numBands : ℕ) (edges : List ℚ) : List (ℕ × ℕ) :=
  (List.range numBands).map (fun i =>
    (max 1 (Int.toNat ⌊edges.getD i 0 / freqResolution⌋),
     min (FFT_SIZE / 2) (Int.toNat ⌊edges.getD (i + 1) 0 / freqResolution⌋)))

/-- The precomputed compensation weights
`min((center/200) ** 0.5, 5.0)`. -/
def freqWeights (numBands : ℕ) (sqrtFn : ℚ → ℚ) (edges : List ℚ) : List ℚ :=
  (List.range numBands).map (fun i =>
    min (sqrtFn ((edges.getD i 0 + edges.getD (i + 1) 0) / 2 / 200)) 5)

/-- `np.max` over the bin slice of the band, or the single fallback bin
(FFT magnitudes are nonnegative, so folding max from 0 is the slice
maximum). -/
def bandMagnitude (fftData : List ℚ) (r : ℕ × ℕ) : ℚ :=
  if r.1 < r.2 then ((fftData.drop r.1).take (r.2 - r.1)).foldl max 0
  else fftData.getD (min r.1 (fftData.length - 1)) 0

/-- The dB → [0,1] remapping with clamping:
`max(0, min(1, (db - THRESHOLD) / -THRESHOLD))`. -/
def normalizeDb (db : ℚ) : ℚ :=
  max 0 (min 1 ((db - SPECTRUM_THRESHOLD_DB) / (-SPECTRUM_THRESHOLD_DB)))

/-- The per-band loop of `_process_fft_chunk`: magnitude, compensation
weight, dB conversion (with the `1e-10` silence floor), normalization. -/
def computedBands (numBands : ℕ) (edges : List ℚ) (sqrtFn dbFn : ℚ → ℚ)
    (fftData : List ℚ) : List ℚ :=
  ((bandBinRanges numBands edges).zip (freqWeights numBands sqrtFn edges)).map
    (fun rw =>
      let magnitude := bandMagnitude fftData rw.1 * rw.2
      let db := if magnitude > 1 / 10 ^ 10 then dbFn magnitude
                else SPECTRUM_THRESHOLD_DB
      normalizeDb db)

/-- `AudioLevels` dataclass. -/
structure AudioLevels where
  input_level : ℚ
  output_level : ℚ
  input_peak : ℚ
  output_peak : ℚ
  spectrum_bands : List ℚ
  deriving DecidableEq

/-- `_process_fft_chunk`: the time-domain meter (its dB value `meterDb`
abstracted), peak decay at 0.95, and the spectrum delivery — note the
`bands[:30]` truncation of the computed band list. -/
def processFftChunk (numBands : ℕ) (edges : List ℚ) (sqrtFn dbFn : ℚ → ℚ)
    (fftData : List ℚ) (meterDb prevPeak : ℚ) : AudioLevels :=
  let meter := normalizeDb meterDb
  let peak := max meter (prevPeak * (95 / 100))
  { input_level := meter
    output_level := meter
    input_peak := peak
    output_peak := peak
    spectrum_bands := (computedBands numBands edges sqrtFn dbFn fftData).take 30 }

/-! ## Claim statements and demonstration inputs -/

/-- The three core-chain stage names. -/
def stageNames : List String := ["ai", "gate", "eq"]

/-- Whether a node kind is a PipeWire builtin (as opposed to a LADSPA
plugin stage). -/
def NodeKind.isBuiltin : NodeKind → Bool
  | .builtin _ => true
  | .ladspa _ _ => false

/-- Radio mode: the compressor stage parameters emitted by the compile
path, as linear functions of `stereo_width`, with the width-0.5
instances. -/
def RadioParamsOk (pow4 : ℚ → ℚ) (c : FilterChainConfig) : Prop :=
  ctrlValue (generateGraph pow4 c) ("compressor") ("Ratio (1:n)")
      = some (4 + 6 * c.stereo_width)
  ∧ ctrlValue (generateGraph pow4 c) ("compressor") ("Threshold level (dB)")
      = some (-15 - 10 * c.stereo_width)
  ∧ ctrlValue (generateGraph pow4 c) ("compressor") ("Release time (ms)")
      = some (100 + 100 * c.stereo_width)
  ∧ ctrlValue (generateGraph pow4 c) ("compressor") ("Makeup gain (dB)")
      = some (2 + 4 * c.stereo_width)
  ∧ ctrlValue (generateGraph pow4 c) ("compressor") ("Attack time (ms)") = some 10
  ∧ ctrlValue (generateGraph pow4 c) ("compressor") ("Knee radius (dB)") = some 3
  ∧ (c.stereo_width = 1/2 →
      ctrlValue (generateGraph pow4 c) ("compressor") ("Ratio (1:n)") = some 7
      ∧ ctrlValue (generateGraph pow4 c) ("compressor") ("Threshold level (dB)")
          = some (-20)
      ∧ ctrlValue (generateGraph pow4 c) ("compressor") ("Release time (ms)")
          = some 150
      ∧ ctrlValue (generateGraph pow4 c) ("compressor") ("Makeup gain (dB)")
          = some 4)

/-- Voice-changer mode: pitch coefficient and gain compensation as
emitted by the compile path, with the width-0 and width-1 instances
(under the defining facts of the power primitive at those points,
`4.0**0.0 = 1` and `4.0**1.0 = 4`). -/
def PitchParamsOk (pow4 : ℚ → ℚ) (c : FilterChainConfig) : Prop :=
  ctrlValue (generateGraph pow4 c) ("pitch") ("Pitch co-efficient")
      = some (max (1/2) (min 2 (1/2 * pow4 c.stereo_width)))
  ∧ ctrlValue (generateGraph pow4 c) ("pitch_gain") ("Amps gain (dB)")
      = some (if pitchCoeff pow4 c.stereo_width < 1
              then 5 + (1 - pitchCoeff pow4 c.stereo_width) * 20 else 5)
  ∧ (c.stereo_width = 0 → pow4 0 = 1 →
      ctrlValue (generateGraph pow4 c) ("pitch") ("Pitch co-efficient") = some (1/2)
      ∧ ctrlValue (generateGraph pow4 c) ("pitch_gain") ("Amps gain (dB)") = some 15)
  ∧ (c.stereo_width = 1 → pow4 1 = 4 →
      ctrlValue (generateGraph pow4 c) ("pitch") ("Pitch co-efficient") = some 2
      ∧ ctrlValue (generateGraph pow4 c) ("pitch_gain") ("Amps gain (dB)") = some 5)

/-- All stages disabled: the compiled graph is the single pass-through
graph — one builtin node, no plugin stages, empty links, with input and
output attached to that node. -/
def PassthroughOk (pow4 : ℚ → ℚ) (c : FilterChainConfig) : Prop :=
  generateGraph pow4 c = passthroughGraph
  ∧ (generateGraph pow4 c).nodes = [copyNode ("passthrough")]
  ∧ (generateGraph pow4 c).nodes.length = 1
  ∧ (∀ n ∈ (generateGraph pow4 c).nodes, n.kind.isBuiltin = true)
  ∧ (copyNode ("passthrough")).kind = .builtin ("copy")
  ∧ (generateGraph pow4 c).links = []
  ∧ (generateGraph pow4 c).inputs = ["passthrough:In"]
  ∧ (generateGraph pow4 c).outputs = ["passthrough:Out"]

/-- The mode-specific continuation of the core chain: for mono the
graph output is the last stage's output port; for the stereo modes the
first link after the chain links feeds the last stage's output into the
mode's first extra node. -/
def chainOutputOk (pow4 : ℚ → ℚ) (c : FilterChainConfig) : Prop :=
  match c.stereo_mode with
  | .mono => (generateGraph pow4 c).outputs
      = [(activeFilters c).getLastD ("") ++ ":Output"]
  | .dualMono => (generateGraph pow4 c).links.getD
        ((activeFilters c).length - 1) (Link.mk ("") (""))
      = Link.mk ((activeFilters c).getLastD ("") ++ ":Output") ("copy_tee:In")
  | .radioVoice => (generateGraph pow4 c).links.getD
        ((activeFilters c).length - 1) (Link.mk ("") (""))
      = Link.mk ((activeFilters c).getLastD ("") ++ ":Output") ("compressor:Input")
  | .voiceChanger => (generateGraph pow4 c).links.getD
        ((activeFilters c).length - 1) (Link.mk ("") (""))
      = Link.mk ((activeFilters c).getLastD ("") ++ ":Output") ("pitch:Input")

/-- Core-chain structure: the compiled graph's stage nodes are exactly
the enabled stages in the fixed ai → gate → eq order, linked
consecutively, with the graph input on the first stage and the chain
output feeding the mode-specific continuation. -/
def ChainStructureOk (pow4 : ℚ → ℚ) (c : FilterChainConfig) : Prop :=
  activeFilters c
      = (if c.noise_reduction_enabled then ["ai"] else [])
        ++ (if c.gate_enabled then ["gate"] else [])
        ++ (if c.eq_enabled then ["eq"] else [])
  ∧ ((generateGraph pow4 c).nodes.map Node.name).filter
        (fun s => stageNames.contains s) = activeFilters c
  ∧ ((generateGraph pow4 c).nodes.take (activeFilters c).length).map Node.name
      = activeFilters c
  ∧ (generateGraph pow4 c).links.take ((activeFilters c).length - 1)
      = consecLinks (activeFilters c)
  ∧ (generateGraph pow4 c).inputs = [(activeFilters c).headD ("") ++ ":Input"]
  ∧ chainOutputOk pow4 c

/-- Equalizer band mapping: the eq stage carries the 15 MBEQ controls
built from the fixed index table, mapped UI bands land on their table
slot, unmapped slots stay 0, and a lone band-0 value X lands exactly on
the low-shelving control. -/
def EqMappingOk (pow4 : ℚ → ℚ) (c : FilterChainConfig) : Prop :=
  (generateGraph pow4 c).findNode ("eq") = some (eqNode c)
  ∧ (eqNode c).control = MBEQ_PARAM_NAMES.zip (mbeqValues c.eq_bands)
  ∧ (∀ i : Fin 10,
      (mbeqValues c.eq_bands).getD (EQ_BAND_TO_MBEQ_INDEX.getD (i : ℕ) 0) 0
        = c.eq_bands.getD (i : ℕ) 0)
  ∧ (∀ j : Fin 15, (j : ℕ) ∉ EQ_BAND_TO_MBEQ_INDEX →
      (mbeqValues c.eq_bands).getD (j : ℕ) 0 = 0)
  ∧ (∀ X : ℚ, c.eq_bands = X :: List.replicate 9 0 →
      nodeCtrl (eqNode c) ("50Hz gain (low shelving)") = some X
      ∧ ∀ p ∈ MBEQ_PARAM_NAMES.drop 1, nodeCtrl (eqNode c) p = some 0)

/-- Start/stop behavior outside a transition: `start` always spawns one
fresh process and reports success; `stop` from the stopped state is an
idempotent success. -/
def StartStopOk (s : SvcState) : Prop :=
  ((svcStart s).2 = true
    ∧ (svcStart s).1.spawnCount = s.spawnCount + 1
    ∧ (svcStart s).1.procAlive = true
    ∧ (svcStart s).1.isUpdating = false)
  ∧ (s.procAlive = false → s.configExists = false →
      (svcStop s).2 = true
      ∧ (svcStop s).1 = { s with cachedNodeId := none }
      ∧ (svcStop s).1.procAlive = false
      ∧ (svcStop s).1.configExists = false
      ∧ svcStop ((svcStop s).1) = ((svcStop s).1, true))

/-- Live-update dispatch and failure handling: setters return success
immediately upon enqueue; the worker consumes each request exactly once;
a nonzero-exit update failure invalidates the cache; an unresolvable
node id drops the request with the cache unresolved; an exception drops
the request with the cache left unchanged. -/
def LiveUpdateOk (cache dump : Option String) (callResult : String → CallResult)
    (queue : List (String × ℚ)) (p : String × ℚ) : Prop :=
  (updateParamLive queue p).2 = true
  ∧ (updateParamLive queue p).1 = queue ++ [p]
  ∧ (workerDrain dump callResult cache queue).2.length = queue.length
  ∧ (∀ nid, cache = some nid → callResult nid = .errExit →
      performLiveUpdate cache dump callResult = (none, false))
  ∧ (cache = none → dump = none →
      performLiveUpdate cache dump callResult = (none, false))
  ∧ (∀ nid, cache = some nid → callResult nid = .exn →
      performLiveUpdate cache dump callResult = (cache, false))

/-- Spectrum delivery: with the monitor's 32 bands, the precomputed
tables have 33 edges and 32 ranges/weights, 32 bands are computed, and
the delivered list is the 30-element clamped prefix. -/
def SpectrumDeliveryOk (logspacePoint : ℕ → ℚ) (sqrtFn dbFn : ℚ → ℚ)
    (fftData : List ℚ) (meterDb prevPeak : ℚ) : Prop :=
  (bandEdges NUM_SPECTRUM_BANDS logspacePoint).length = 33
  ∧ (bandBinRanges NUM_SPECTRUM_BANDS
      (bandEdges NUM_SPECTRUM_BANDS logspacePoint)).length = 32
  ∧ (freqWeights NUM_SPECTRUM_BANDS sqrtFn
      (bandEdges NUM_SPECTRUM_BANDS logspacePoint)).length = 32
  ∧ (computedBands NUM_SPECTRUM_BANDS (bandEdges NUM_SPECTRUM_BANDS logspacePoint)
      sqrtFn dbFn fftData).length = 32
  ∧ (processFftChunk NUM_SPECTRUM_BANDS (bandEdges NUM_SPECTRUM_BANDS logspacePoint)
      sqrtFn dbFn fftData meterDb prevPeak).spectrum_bands
    = (computedBands NUM_SPECTRUM_BANDS (bandEdges NUM_SPECTRUM_BANDS logspacePoint)
        sqrtFn dbFn fftData).take 30
  ∧ (processFftChunk NUM_SPECTRUM_BANDS (bandEdges NUM_SPECTRUM_BANDS logspacePoint)
      sqrtFn dbFn fftData meterDb prevPeak).spectrum_bands.length = 30
  ∧ (∀ x ∈ (processFftChunk NUM_SPECTRUM_BANDS
        (bandEdges NUM_SPECTRUM_BANDS logspacePoint)
        sqrtFn dbFn fftData meterDb prevPeak).spectrum_bands, 0 ≤ x ∧ x ≤ 1)

/-- A radio-mode configuration with width 0.5 (other fields default:
noise reduction and gate enabled). -/
def radioDemo : FilterChainConfig :=
  { stereo_mode := .radioVoice, stereo_width := 1/2 }

/-- A voice-changer configuration with width 0. -/
def pitchDemo : FilterChainConfig :=
  { stereo_mode := .voiceChanger, stereo_width := 0 }

/-- A configuration with every core stage disabled. -/
def allOffDemo : FilterChainConfig :=
  { noise_reduction_enabled := false, gate_enabled := false, eq_enabled := false }

/-- An eq-enabled configuration with UI band 0 at 3 dB. -/
def eqDemo : FilterChainConfig :=
  { eq_enabled := true, eq_bands := 3 :: List.replicate 9 0 }

/-- A service state with the filter chain running. -/
def runningState : SvcState :=
  { isUpdating := false, procAlive := true, configExists := true
    cachedNodeId := some ("42"), spawnCount := 1 }

/-- A stopped service state. -/
def stoppedState : SvcState :=
  { isUpdating := false, procAlive := false, configExists := false
    cachedNodeId := none, spawnCount := 0 }

/-! ## Theorems -/

/-- Every node of the passthrough graph is a builtin (no plugin stage). -/
theorem passthrough_nodes_builtin :
    ∀ n ∈ passthroughGraph.nodes, n.kind.isBuiltin = true := by
  decide

/-- Claim C1 (amended): in Radio mode with a nonempty chain, the
compressor stage is parameterized from width by ratio = 4+6·w,
threshold = −15−10·w, release = 100+100·w and makeup gain = 2+4·w (the
compile path's formula), with fixed attack 10 and knee 3; at w = 0.5
the emitted values are ratio 7, threshold −20, release 150, makeup 4. -/
theorem radio_compressor_spec (pow4 : ℚ → ℚ) (c : FilterChainConfig)
    (hm : c.stereo_mode = .radioVoice) (ha : activeFilters c ≠ []) :
    RadioParamsOk pow4 c := by
  obtain ⟨nr, mo, st, ge, gt, gr, ga, gh, gl, sm, sw, cf, cl, ee, eb, te, ta⟩ := c
  simp only at hm
  subst hm
  cases nr <;> cases ge <;> cases ee <;>
    first
      | exact absurd rfl ha
      | refine ⟨congrArg some (by ring), congrArg some (by ring),
          congrArg some (by ring), congrArg some (by ring), rfl, rfl, ?_⟩
        · intro hw
          simp only at hw
          subst hw
          exact ⟨congrArg some (by norm_num), congrArg some (by norm_num),
            congrArg some (by norm_num), congrArg some (by norm_num)⟩

/-- Claim C1, witness at the width-0.5 radio configuration. -/
theorem radio_compressor_spec_witness : RadioParamsOk (fun _ => 1) radioDemo :=
  radio_compressor_spec (fun _ => 1) radioDemo rfl (by decide)

/-- Claim C1, counterexample: the claim's makeup-gain formula 6+6·w
(and its value 9 at w = 0.5) does not match the compiled graph, which
emits 2+4·w = 4. -/
theorem radio_makeup_counterexample :
    radioDemo.stereo_mode = .radioVoice ∧ activeFilters radioDemo ≠ []
    ∧ radioDemo.stereo_width = 1/2
    ∧ ctrlValue (generateGraph (fun _ => 1) radioDemo) ("compressor")
        ("Makeup gain (dB)") = some 4
    ∧ ctrlValue (generateGraph (fun _ => 1) radioDemo) ("compressor")
        ("Makeup gain (dB)") ≠ some (6 + 6 * radioDemo.stereo_width)
    ∧ (6 + 6 * radioDemo.stereo_width : ℚ) = 9 := by
  refine ⟨rfl, by decide, rfl, congrArg some (by norm_num [radioDemo]), ?_,
    by norm_num [radioDemo]⟩
  intro h
  have h2 : (2 + (1/2 : ℚ) * 4) = 6 + 6 * (1/2 : ℚ) := Option.some.inj h
  norm_num at h2

/-- Claim C2: in VoiceChanger mode with a nonempty chain, the pitch
stage coefficient is clamp(0.5·4^w, 0.5, 2.0) and the gain stage is
5 dB plus (1−pitch)·20 dB when pitch < 1; width 0 yields pitch 0.5 and
gain 15, width 1 yields pitch 2 and gain 5. -/
theorem pitch_mode_spec (pow4 : ℚ → ℚ) (c : FilterChainConfig)
    (hm : c.stereo_mode = .voiceChanger) (ha : activeFilters c ≠ []) :
    PitchParamsOk pow4 c := by
  obtain ⟨nr, mo, st, ge, gt, gr, ga, gh, gl, sm, sw, cf, cl, ee, eb, te, ta⟩ := c
  simp only at hm
  subst hm
  cases nr <;> cases ge <;> cases ee <;>
    first
      | exact absurd rfl ha
      | refine ⟨rfl, rfl, ?_, ?_⟩ <;>
          · intro hw hp
            simp only at hw
            subst hw
            constructor <;>
              · refine congrArg some ?_
                simp only [pitchCoeff, pitchGainDb, hp]
                norm_num

/-- Claim C2, witness at the width-0 voice-changer configuration with
the power primitive fixed at its value 4^0 = 1. -/
theorem pitch_mode_spec_witness : PitchParamsOk (fun _ => 1) pitchDemo :=
  pitch_mode_spec (fun _ => 1) pitchDemo rfl (by decide)

/-- Claim C3: with all three stages disabled the compiled graph is the
single builtin pass-through node, with no plugin stages, no links, and
input and output attached to that node, in every stereo mode. -/
theorem passthrough_spec (pow4 : ℚ → ℚ) (c : FilterChainConfig)
    (h1 : c.noise_reduction_enabled = false) (h2 : c.gate_enabled = false)
    (h3 : c.eq_enabled = false) : PassthroughOk pow4 c := by
  obtain ⟨nr, mo, st, ge, gt, gr, ga, gh, gl, sm, sw, cf, cl, ee, eb, te, ta⟩ := c
  simp only at h1 h2 h3
  subst h1; subst h2; subst h3
  cases sm <;> exact ⟨rfl, rfl, rfl, passthrough_nodes_builtin, rfl, rfl, rfl, rfl⟩

/-- Claim C3, witness at the all-stages-disabled configuration. -/
theorem passthrough_spec_witness : PassthroughOk (fun _ => 1) allOffDemo :=
  passthrough_spec (fun _ => 1) allOffDemo rfl rfl rfl

/-- Claim C4: with at least one stage enabled, in every channel mode the
compiled graph's stage nodes are exactly the enabled stages in the fixed
ai → gate → eq order, linked consecutively, with the graph input on the
first stage and the chain output of the last stage feeding the
mode-specific continuation. -/
theorem chain_structure_spec (pow4 : ℚ → ℚ) (c : FilterChainConfig)
    (ha : activeFilters c ≠ []) : ChainStructureOk pow4 c := by
  obtain ⟨nr, mo, st, ge, gt, gr, ga, gh, gl, sm, sw, cf, cl, ee, eb, te, ta⟩ := c
  cases nr <;> cases ge <;> cases ee <;> cases sm <;>
    first
      | exact absurd rfl ha
      | exact ⟨rfl, rfl, rfl, rfl, rfl, rfl⟩

/-- Claim C4, witness at the default configuration (noise reduction and
gate enabled, mono). -/
theorem chain_structure_spec_witness :
    ChainStructureOk (fun _ => 1) ({} : FilterChainConfig) :=
  chain_structure_spec (fun _ => 1) ({} : FilterChainConfig) (by decide)

/-- Claim C5: with the equalizer enabled and 10 UI bands, the compiled
eq stage carries the 15 MBEQ controls built via the fixed index table,
each UI band lands on exactly its table slot, unmapped slots stay 0,
and a lone band-0 value X appears exactly on the low-shelving control
with all other controls 0. -/
theorem eq_mapping_spec (pow4 : ℚ → ℚ) (c : FilterChainConfig)
    (he : c.eq_enabled = true) (hl : c.eq_bands.length = 10) :
    EqMappingOk pow4 c := by
  obtain ⟨nr, mo, st, ge, gt, gr, ga, gh, gl, sm, sw, cf, cl, ee, eb, te, ta⟩ := c
  simp only at he hl
  subst he
  rcases eb with _ | ⟨b0, _ | ⟨b1, _ | ⟨b2, _ | ⟨b3, _ | ⟨b4, _ | ⟨b5, _ | ⟨b6,
    _ | ⟨b7, _ | ⟨b8, _ | ⟨b9, eb⟩⟩⟩⟩⟩⟩⟩⟩⟩⟩ <;>
    simp only [List.length_cons, List.length_nil] at hl <;>
    try omega
  have heb : eb = [] := by
    cases eb with
    | nil => rfl
    | cons x xs => simp at hl
  subst heb
  refine ⟨?_, rfl, ?_, ?_, ?_⟩
  · cases nr <;> cases ge <;> cases sm <;> rfl
  · intro i; fin_cases i <;> rfl
  · intro j hj
    fin_cases j <;> first | rfl | (exact absurd (by decide) hj)
  · intro X hX
    simp only [List.replicate, List.cons.injEq, and_true] at hX
    obtain ⟨rfl, rfl, rfl, rfl, rfl, rfl, rfl, rfl, rfl, rfl⟩ := hX
    refine ⟨rfl, ?_⟩
    intro p hp
    fin_cases hp <;> rfl

/-- Claim C5, witness at the configuration with UI band 0 set to 3 dB. -/
theorem eq_mapping_spec_witness : EqMappingOk (fun _ => 1) eqDemo :=
  eq_mapping_spec (fun _ => 1) eqDemo rfl rfl

/-- Claim C6: the generator is deterministic — equal configurations
produce byte-identical configuration text. -/
theorem generate_deterministic (pow4 : ℚ → ℚ) (c1 c2 : FilterChainConfig)
    (h : c1 = c2) : generate pow4 c1 = generate pow4 c2 := by
  rw [h]

/-- Claim C6, witness at the default configuration. -/
theorem generate_deterministic_witness :
    generate (fun _ => 1) ({} : FilterChainConfig)
      = generate (fun _ => 1) ({} : FilterChainConfig) :=
  generate_deterministic (fun _ => 1) ({} : FilterChainConfig)
    ({} : FilterChainConfig) rfl

/-- Claim C7 (amended): outside a transition, `start` always stops any
existing process and spawns exactly one fresh one, reporting success —
it is not a no-op when already running — while `stop` from the stopped
state is an idempotent success. -/
theorem start_stop_spec (s : SvcState) (h : s.isUpdating = false) :
    StartStopOk s := by
  obtain ⟨u, p, cf, cid, n⟩ := s
  simp only at h
  subst h
  refine ⟨⟨rfl, rfl, rfl, rfl⟩, fun hp hc => ?_⟩
  simp only at hp hc
  subst hp; subst hc
  exact ⟨rfl, rfl, rfl, rfl, rfl⟩

/-- Claim C7, witness at the stopped state. -/
theorem start_stop_spec_witness : StartStopOk stoppedState :=
  start_stop_spec stoppedState rfl

/-- Claim C7, counterexample: calling `start` in a Running state is not
a no-op — it changes the state and performs one more spawn. -/
theorem start_running_counterexample :
    runningState.procAlive = true ∧ runningState.isUpdating = false
    ∧ (svcStart runningState).2 = true
    ∧ (svcStart runningState).1.spawnCount ≠ runningState.spawnCount
    ∧ (svcStart runningState).1 ≠ runningState := by
  decide

/-- Claim C8 (code bug): −40 dB lies inside the range documented by
`config.py` (−40..40), yet `set_eq_band(0, −40)` records and pushes the
clamped value −12 instead; out-of-range indices do fail without
modifying the bands. -/
theorem set_eq_band_clamp_bug :
    EQ_BAND_MIN ≤ -40 ∧ (-40 : ℚ) ≤ EQ_BAND_MAX
    ∧ (set_eq_band true true (List.replicate 10 0) 0 (-40)).ok = true
    ∧ (set_eq_band true true (List.replicate 10 0) 0 (-40)).bands.getD 0 99 = -12
    ∧ (set_eq_band true true (List.replicate 10 0) 0 (-40)).push
        = some ("eq:50Hz gain (low shelving)", -12)
    ∧ (set_eq_band true true (List.replicate 10 0) 0 (-40)).bands.getD 0 99 ≠ -40
    ∧ (set_eq_band true true (List.replicate 10 0) 10 5).ok = false
    ∧ (set_eq_band true true (List.replicate 10 0) 10 5).bands = List.replicate 10 0
    ∧ (set_eq_band true true (List.replicate 10 0) (-1) 5).ok = false
    ∧ (set_eq_band true true (List.replicate 10 0) (-1) 5).bands
        = List.replicate 10 0 := by
  decide

/-- Claim C9 (amended): setters report success immediately upon
enqueue; the worker consumes each request exactly once without retry; a
nonzero-exit update failure invalidates the cache; an unresolvable node
id drops the request with the cache unresolved; an exception drops the
request but leaves the cache unchanged. -/
theorem live_update_spec (cache dump : Option String)
    (callResult : String → CallResult) (queue : List (String × ℚ))
    (p : String × ℚ) : LiveUpdateOk cache dump callResult queue p := by
  refine ⟨rfl, rfl, ?_, ?_, ?_, ?_⟩
  · induction queue generalizing cache with
    | nil => rfl
    | cons q rest ih => simp [workerDrain, ih]
  · intro nid hc hcall
    subst hc
    simp [performLiveUpdate, getFilterChainNodeId, hcall]
  · intro hc hd
    subst hc; subst hd
    rfl
  · intro nid hc hcall
    subst hc
    simp [performLiveUpdate, getFilterChainNodeId, hcall]

/-- Claim C9, counterexample: when the external update call raises an
exception, the request fails but the cached node id is not
invalidated. -/
theorem live_update_exception_counterexample :
    (performLiveUpdate (some ("42")) none (fun _ => .exn)).2 = false
    ∧ (performLiveUpdate (some ("42")) none (fun _ => .exn)).1 = some ("42")
    ∧ (performLiveUpdate (some ("42")) none (fun _ => .exn)).1 ≠ none := by
  decide

/-- Each normalized spectrum band lies in [0, 1]. -/
theorem normalizeDb_bounds (db : ℚ) : 0 ≤ normalizeDb db ∧ normalizeDb db ≤ 1 := by
  constructor
  · exact le_max_left 0 _
  · exact max_le (by norm_num) (min_le_left 1 _)

/-- Claim C10 (amended): with the monitor's 32 bands, 33 band edges and
32 bin ranges / weights are precomputed, 32 bands are computed per FFT
window, and the delivered spectrum is their 30-element prefix, each
entry clamped to [0, 1]. -/
theorem spectrum_delivery_spec (logspacePoint : ℕ → ℚ) (sqrtFn dbFn : ℚ → ℚ)
    (fftData : List ℚ) (meterDb prevPeak : ℚ) :
    SpectrumDeliveryOk logspacePoint sqrtFn dbFn fftData meterDb prevPeak := by
  refine ⟨rfl, rfl, rfl, rfl, rfl, rfl, ?_⟩
  intro x hx
  have hx2 : x ∈ computedBands NUM_SPECTRUM_BANDS
      (bandEdges NUM_SPECTRUM_BANDS logspacePoint) sqrtFn dbFn fftData :=
    List.take_subset _ _ hx
  simp only [computedBands, List.mem_map] at hx2
  obtain ⟨rw, hmem, hval⟩ := hx2
  subst hval
  exact normalizeDb_bounds _

/-- Claim C10, counterexample: the precomputed band-edge table has 33
entries, not 32. -/
theorem band_edges_counterexample :
    (bandEdges NUM_SPECTRUM_BANDS (fun _ => 0)).length = 33 ∧ (33 : ℕ) ≠ 32 := by
  decide

end BigMic
